import Mathlib

/-!
Shallow embedding of `src/handler.py` of the discord-handler repository.

The file models the two classes of the source, `Menu` and `Handler`, as pure
Lean functions over explicit state.  Python dictionaries become association
lists with Python's insertion-order update semantics (`dictGet`/`dictInsert`),
Python exceptions become `Except PyError`, and every awaited side effect of the
chat-platform collaborator (message send/edit, reaction add/remove) is recorded
in an explicit `Effect` trace.  The results successively returned by the
collaborator's wait-for-event primitive are supplied as an explicit list of
`WaitOutcome`s / arrived messages.
-/

set_option autoImplicit false
set_option linter.unusedVariables false

/-- Python runtime errors that the functions of `handler.py` can raise. -/
inductive PyError where
  /-- KeyError raised by a failed dictionary subscript `d[k]`. -/
  | keyError (k : String)
  /-- TypeError, e.g. raised by tuple-unpacking a non-iterable value. -/
  | typeError (msg : String)
  /-- asyncio.TimeoutError raised by `bot.wait_for` when its timeout elapses. -/
  | timeoutError
  /-- AttributeError, e.g. attribute access on None. -/
  | attributeError (msg : String)
  deriving DecidableEq, Repr

/-- Lookup in a Python dict modelled as an insertion-ordered association list:
returns the value at the first (unique) occurrence of the key, if any. -/
def dictGet {α : Type} (m : List (String × α)) (k : String) : Option α :=
  match m with
  | [] => none
  | (k', v') :: rest => if k' = k then some v' else dictGet rest k

/-- Python dict assignment `d[k] = v`: overwrites the value in place if the key
is present (keeping its position in insertion order), else appends the pair. -/
def dictInsert {α : Type} (m : List (String × α)) (k : String) (v : α) :
    List (String × α) :=
  match m with
  | [] => [(k, v)]
  | (k', v') :: rest =>
      if k' = k then (k, v) :: rest else (k', v') :: dictInsert rest k v

/-- Field descriptor of a flow, as stored in the configuration: either a pair
(name, value) or a triple (name, value, inline flag).  Mirrors the
`len(field) == 2` test of `Handler.retrieve_embed`. -/
inductive FieldSpec where
  | two (name value : String)
  | three (name value : String) (inl : Bool)
  deriving DecidableEq, Repr

/-- Rendered rich message, the model of `discord.Embed` after
`Handler.retrieve_embed` has populated it: title, resolved colour, the fields
added by `add_field` as (name, value, inline) triples, footer, thumbnail and
image. -/
structure Embed where
  title : String
  colour : Nat
  fields : List (String × String × Bool)
  footer_text : String
  footer_image : String
  thumbnail : String
  image : String
  deriving DecidableEq, Repr

/-- Page descriptor returned by calling a flow class on the player object:
the attributes read by `Handler.retrieve_embed`. -/
structure FlowInstance where
  title : String
  colour : String
  fields : List FieldSpec
  footer_text : String
  footer_image : String
  thumbnail : String
  image : String
  deriving DecidableEq, Repr

/-- Forward pointer chaining one flow to the next: the `.pointer` attribute
read by `Handler.retrieve_menu`, with a flow identifier and an optional next
pointer. -/
inductive Pointer where
  | mk (flow : String) (next : Option Pointer)

/-- Flow identifier carried by a pointer. -/
def Pointer.flow : Pointer → String
  | .mk f _ => f

/-- Next pointer in the chain (None when the chain ends). -/
def Pointer.next : Pointer → Option Pointer
  | .mk _ n => n

/-- Entry of the Handler's pages dictionary: a flow class, i.e. a callable
that renders a page descriptor from the player object, together with its
class-level `pointer` attribute. -/
structure FlowClass where
  render : Nat → FlowInstance
  pointer : Option Pointer

/-- State of a `Handler` object: the pages dictionary, the player object
(opaque token), the injected colour-name resolution collaborator
(`utils.colours.get_colour`), and the stored message reference of `display`
(a message id once the first message has been posted). -/
structure Handler where
  pages : List (String × FlowClass)
  player : Nat
  getColour : String → Nat
  message : Option Nat

/-- Rendering of one configuration field by the loop of
`Handler.retrieve_embed`: a 2-element tuple is added with inline=True, a
3-element tuple is added with its own third element as the inline flag. -/
def addFieldOf : FieldSpec → String × String × Bool
  | .two n v => (n, v, true)
  | .three n v b => (n, v, b)

/-- Model of `Handler.retrieve_embed`: looks up the flow class at the given
key (KeyError if absent), calls it on the player, resolves the colour through
the collaborator and builds the embed, adding each field per `addFieldOf` and
setting footer, thumbnail and image from the descriptor. -/
def Handler.retrieve_embed (h : Handler) (flow_type : String) :
    Except PyError Embed := do
  let fc ← match dictGet h.pages flow_type with
    | some fc => Except.ok fc
    | none => Except.error (PyError.keyError flow_type)
  let flow := fc.render h.player
  Except.ok
    { title := flow.title
      colour := h.getColour flow.colour
      fields := flow.fields.map addFieldOf
      footer_text := flow.footer_text
      footer_image := flow.footer_image
      thumbnail := flow.thumbnail
      image := flow.image }

/-- Text message arriving on the gateway: author id, channel id and content,
the attributes read by `Handler.verify` and `Handler.get_message`. -/
structure InMessage where
  author : Nat
  channel : Nat
  content : String
  deriving DecidableEq, Repr

/-- Model of `Handler.verify`: accepts a message exactly when its author is
the context's author and its channel is the context's channel. -/
def Handler.verify (ctxAuthor ctxChannel : Nat) (message : InMessage) : Bool :=
  message.author == ctxAuthor && message.channel == ctxChannel

/-- Model of `bot.wait_for` for a given check predicate: the argument list
holds the events arriving before the timeout elapses, in arrival order; the
first one passing the check is returned.  If none passes, discord.py's
`wait_for` raises `asyncio.TimeoutError` (it does not return None). -/
def waitForFirst {α : Type} (check : α → Bool) (arrivals : List α) :
    Except PyError α :=
  match arrivals.find? check with
  | some a => Except.ok a
  | none => Except.error PyError.timeoutError

/-- Model of `Handler.get_message`: awaits `bot.wait_for` filtered by
`Handler.verify` and returns the content of the received message.  The source's
`if confirm is not None` test is always true on a returned event, and on
timeout `wait_for` raises before the test is reached, so the `return None`
branch is unreachable. -/
def Handler.get_message (ctxAuthor ctxChannel : Nat)
    (arrivals : List InMessage) : Except PyError (Option String) := do
  let confirm ← waitForFirst (Handler.verify ctxAuthor ctxChannel) arrivals
  Except.ok (some confirm.content)

/-- Awaited side effects issued to the chat platform collaborator. -/
inductive Effect where
  /-- A new message with the given id and embed was sent to the channel. -/
  | send (msgId : Nat) (e : Embed)
  /-- A reaction symbol was added to the message with the given id. -/
  | addReaction (msgId : Nat) (emoji : String)
  /-- The message with the given id was edited to show the given embed. -/
  | edit (msgId : Nat) (e : Embed)
  /-- The given user's instance of the reaction symbol was removed from the
  message with the given id. -/
  | removeReaction (msgId : Nat) (emoji : String) (user : Nat)
  deriving DecidableEq, Repr

/-- Model of `Handler.display`: on the first call (stored message is None) it
renders the flow, posts it as a new message (the platform assigns `newId`) and
stores the reference; on every later call it edits the stored message in place
to the new flow's render and posts nothing. -/
def Handler.display (h : Handler) (flow : String) (newId : Nat) :
    Except PyError (Handler × List Effect) :=
  match h.message with
  | none => do
      let e ← h.retrieve_embed flow
      Except.ok ({ h with message := some newId }, [Effect.send newId e])
  | some m => do
      let e ← h.retrieve_embed flow
      Except.ok (h, [Effect.edit m e])

/-- Model of the tuple-unpacking statement `embed, message_type = x` applied
to the value of `Handler.retrieve_embed`, at line 184 of the source.  The
value is a single `discord.Embed`, which defines no `__iter__`, so the
unpacking raises TypeError (cannot unpack non-iterable Embed object). -/
def unpackTwoOfEmbed (e : Embed) : Except PyError (Embed × Embed) :=
  Except.error (PyError.typeError "cannot unpack non-iterable Embed object")

/-- Possible actions bound to a reaction symbol: the stored (function, args)
pairs of the source specialised to the shapes the claims exercise - the
built-in `Menu.change_page` with its page key, a callback that sets the exit
flag, and a callback with no effect on the menu. -/
inductive MenuAction where
  | changePage (page : String)
  | setExit
  | noop
  deriving DecidableEq, Repr

/-- State of a `Menu` object: the pages dictionary (flow key to rendered
embed), the reactions dictionary (emoji to bound action), the context's author
and command-message id, the live message posted by `deploy_menu` (id and
currently displayed embed) and the exit flag. -/
structure MenuState where
  pages : List (String × Embed)
  reactions : List (String × MenuAction)
  ctxAuthor : Nat
  ctxMessageId : Nat
  messageId : Option Nat
  messageEmbed : Option Embed
  exit : Bool
  deriving DecidableEq, Repr

/-- Model of `Menu.__init__`: stores the pages and context, with no reaction
bound, no live message and the exit flag cleared. -/
def Menu.init (pages : List (String × Embed)) (ctxAuthor ctxMessageId : Nat) :
    MenuState :=
  { pages := pages
    reactions := []
    ctxAuthor := ctxAuthor
    ctxMessageId := ctxMessageId
    messageId := none
    messageEmbed := none
    exit := false }

/-- Model of `Menu.attach_function`: registers (or overwrites) the binding of
the reaction symbol in the reactions dictionary. -/
def Menu.attach_function (st : MenuState) (reaction : String)
    (a : MenuAction) : MenuState :=
  { st with reactions := dictInsert st.reactions reaction a }

/-- Modelled from the spec: `utils.emojis.PAGES` of the `utils` module, which
is part of the repository but not under `src/`.  A fixed ordered list of nine
distinct page-number reaction symbols; `Menu.attach_numbers` subscripts it at
indices 1 through 9, so index 0 holds an unused placeholder symbol. -/
def emojisPAGES (i : Nat) : String :=
  (["0⃣", "1⃣", "2⃣", "3⃣", "4⃣", "5⃣",
    "6⃣", "7⃣", "8⃣", "9⃣"].getD i "")

/-- Model of `Menu.attach_numbers`: zips all page keys, in the dictionary's
iteration (insertion) order and starting with MAIN, with the indices  1..9 of
`range(1, 10)`; the zip stops at the shorter side, and each resulting pair
binds the page-number symbol at that index to `Menu.change_page` of that page
key. -/
def Menu.attach_numbers (st : MenuState) : MenuState :=
  let pairs := (st.pages.map Prod.fst).zip (List.range' 1 9)
  let rs := pairs.foldl
    (fun rs pi => dictInsert rs (emojisPAGES pi.2) (MenuAction.changePage pi.1))
    st.reactions
  { st with reactions := rs }

/-- Reaction payload of a reaction-added gateway event: the id of the message
the reaction sits on and its emoji. -/
structure Reaction where
  msgId : Nat
  emoji : String
  deriving DecidableEq, Repr

/-- Reaction-added event as delivered to the wait-for check: the reaction and
the reacting user. -/
structure RxEvent where
  reaction : Reaction
  user : Nat
  deriving DecidableEq, Repr

/-- Model of `Menu.verify`, the check predicate passed to `bot.wait_for` in
`deploy_menu`: compares the reacting user with the context message's author.
The reaction argument is not inspected. -/
def Menu.verify (ctxAuthor : Nat) (reaction : Reaction) (user : Nat) : Bool :=
  user == ctxAuthor

/-- Written from the spec's words for comparison with `Menu.verify`: a filter
that accepts a reaction-added event exactly when the reaction is on the
session's live message and the reacting user is the original invoking user. -/
def specSessionFilter (ctxAuthor liveMsgId : Nat) (reaction : Reaction)
    (user : Nat) : Bool :=
  reaction.msgId == liveMsgId && user == ctxAuthor

/-- Model of `Menu.change_page`: evaluates `self.__message.edit` (an
AttributeError on None if no live message exists), subscripts the pages
dictionary at the page key (KeyError if absent, propagated to the caller) and
edits the live message in place to the embed found there. -/
def Menu.change_page (st : MenuState) (page : String) :
    Except PyError (MenuState × List Effect) := do
  let m ← match st.messageId with
    | some m => Except.ok m
    | none => Except.error (PyError.attributeError "NoneType has no attribute edit")
  let e ← match dictGet st.pages page with
    | some e => Except.ok e
    | none => Except.error (PyError.keyError page)
  Except.ok ({ st with messageEmbed := some e }, [Effect.edit m e])

/-- Dispatch of a stored (function, args) pair by the loop body of
`deploy_menu`. -/
def runAction (st : MenuState) : MenuAction →
    Except PyError (MenuState × List Effect)
  | MenuAction.changePage p => Menu.change_page st p
  | MenuAction.setExit => Except.ok ({ st with exit := true }, [])
  | MenuAction.noop => Except.ok (st, [])

/-- Loop body of `deploy_menu` for one received event: if the reaction's emoji
has a binding, the bound callback is awaited to completion (its exceptions
propagate); afterwards the reacting user's reaction instance is removed from
the message the reaction sits on.  Events with an unbound emoji only get the
removal. -/
def processEvent (st : MenuState) (ev : RxEvent) :
    Except PyError (MenuState × List Effect) :=
  match dictGet st.reactions ev.reaction.emoji with
  | some act => do
      let (st', effs) ← runAction st act
      Except.ok (st',
        effs ++ [Effect.removeReaction ev.reaction.msgId ev.reaction.emoji
          ev.user])
  | none =>
      Except.ok (st,
        [Effect.removeReaction ev.reaction.msgId ev.reaction.emoji ev.user])

/-- Outcome of one `bot.wait_for('reaction_add', timeout=60.0, ...)` await:
either the first arriving event that passed the check, or the elapse of the
60-second timeout. -/
inductive WaitOutcome where
  | event (ev : RxEvent)
  | timeout
  deriving DecidableEq, Repr

/-- Event loop of `Menu.deploy_menu` over the successive outcomes the wait
primitive yields.  The exit flag is tested before each await; a timeout makes
discord.py's `wait_for` raise `asyncio.TimeoutError`, which nothing in the
loop catches (the source's `if reaction is None` test is unreachable), so it
propagates; a received event is handled by `processEvent` and the loop
repeats. -/
def deployLoop (st : MenuState) :
    List WaitOutcome → Except PyError (MenuState × List Effect)
  | [] => Except.ok (st, [])
  | o :: rest =>
      if st.exit then Except.ok (st, [])
      else
        match o with
        | WaitOutcome.timeout => Except.error PyError.timeoutError
        | WaitOutcome.event ev => do
            let (st', effs) ← processEvent st ev
            let (st'', effs') ← deployLoop st' rest
            Except.ok (st'', effs ++ effs')

/-- Model of `Menu.deploy_menu`: sends the MAIN page as the live message (the
platform assigns `newMsgId`), adds every bound reaction symbol to it, then
runs the event loop. -/
def Menu.deploy_menu (st : MenuState) (newMsgId : Nat)
    (outcomes : List WaitOutcome) : Except PyError (MenuState × List Effect) := do
  let mainEmbed ← match dictGet st.pages "MAIN" with
    | some e => Except.ok e
    | none => Except.error (PyError.keyError "MAIN")
  let st1 := { st with messageId := some newMsgId,
                       messageEmbed := some mainEmbed }
  let addEffs := st.reactions.map (fun r => Effect.addReaction newMsgId r.1)
  let (st2, effs) ← deployLoop st1 outcomes
  Except.ok (st2, Effect.send newMsgId mainEmbed :: (addEffs ++ effs))

/-- Coroutine object built but possibly never awaited. -/
inductive Coroutine where
  | clearReactions (msgId : Nat)
  deriving DecidableEq, Repr

/-- Model of `Menu.clear_reactions`: the body evaluates
`self.__ctx.message.clear_reactions()`, building the clear-reactions coroutine
for the context's command message, but never awaits it; the state is untouched
and no effect reaches the platform. -/
def Menu.clear_reactions (st : MenuState) :
    MenuState × List Effect × Coroutine :=
  (st, [], Coroutine.clearReactions st.ctxMessageId)

/-- Chain walk of `Handler.retrieve_menu`: follows the pointer chain, adding
the rendered embed of each pointed-to flow to the menu dictionary. -/
def walkChain (h : Handler) :
    Option Pointer → List (String × Embed) →
    Except PyError (List (String × Embed))
  | none, menu => Except.ok menu
  | some (Pointer.mk f nxt), menu => do
      let e ← h.retrieve_embed f
      walkChain h nxt (dictInsert menu f e)

/-- Model of `Handler.retrieve_menu`: evaluates `retrieve_embed`, attempts the
two-variable tuple unpacking of its result (which raises TypeError, the result
being a single Embed), and - were that reached - would walk the pointer chain
from the flow class at the given key into a menu dictionary seeded with the
MAIN entry, returning a Menu over it. -/
def Handler.retrieve_menu (h : Handler) (flow_type : String)
    (ctxAuthor ctxMessageId : Nat) : Except PyError MenuState := do
  let r ← h.retrieve_embed flow_type
  let (embed, _message_type) ← unpackTwoOfEmbed r
  let fc ← match dictGet h.pages flow_type with
    | some fc => Except.ok fc
    | none => Except.error (PyError.keyError flow_type)
  let menu ← walkChain h fc.pointer [("MAIN", embed)]
  Except.ok (Menu.init menu ctxAuthor ctxMessageId)

/-- Written from the spec's words for comparison with `Menu.attach_numbers`:
auto-pagination assigns, for each non-MAIN page key in the map's iteration
order, the next unused page-number symbol from the fixed list, at most nine
of them. -/
def specAutoBind (pages : List (String × Embed)) : List (String × MenuAction) :=
  (((pages.map Prod.fst).filter (fun k => k != "MAIN")).zip
      (List.range' 1 9)).map
    (fun pi => (emojisPAGES pi.2, MenuAction.changePage pi.1))

/-- Page descriptor builder for the concrete fixtures below. -/
def mkFlow (t : String) (fs : List FieldSpec) : FlowInstance :=
  { title := t
    colour := "red"
    fields := fs
    footer_text := "ft"
    footer_image := "fi"
    thumbnail := "th"
    image := "im" }

/-- Fixture flow class B: last link of the pointer chain. -/
def fcB : FlowClass :=
  { render := fun _ => mkFlow "b" [FieldSpec.three "x" "y" false]
    pointer := none }

/-- Fixture flow class A: points at B. -/
def fcA : FlowClass :=
  { render := fun _ => mkFlow "a" []
    pointer := some (Pointer.mk "B" none) }

/-- Fixture flow class MAIN: heads the chain MAIN, A, B. -/
def fcMAIN : FlowClass :=
  { render := fun _ => mkFlow "main" [FieldSpec.two "n" "v"]
    pointer := some (Pointer.mk "A" (some (Pointer.mk "B" none))) }

/-- Fixture handler whose pages dictionary holds the chain MAIN, A, B, with
no message posted yet. -/
def sampleHandler : Handler :=
  { pages := [("MAIN", fcMAIN), ("A", fcA), ("B", fcB)]
    player := 0
    getColour := fun _ => 7
    message := none }

/-- Embed rendered by `sampleHandler` for flow MAIN. -/
def eMainRendered : Embed :=
  { title := "main"
    colour := 7
    fields := [("n", "v", true)]
    footer_text := "ft"
    footer_image := "fi"
    thumbnail := "th"
    image := "im" }

/-- Embed rendered by `sampleHandler` for flow A. -/
def eARendered : Embed :=
  { title := "a"
    colour := 7
    fields := []
    footer_text := "ft"
    footer_image := "fi"
    thumbnail := "th"
    image := "im" }

/-- Embed rendered by `sampleHandler` for flow B. -/
def eBRendered : Embed :=
  { title := "b"
    colour := 7
    fields := [("x", "y", false)]
    footer_text := "ft"
    footer_image := "fi"
    thumbnail := "th"
    image := "im" }

/-- Fixture rendered page stored under MAIN in menu fixtures. -/
def eMain : Embed :=
  { title := "MAIN page"
    colour := 1
    fields := []
    footer_text := ""
    footer_image := ""
    thumbnail := ""
    image := "" }

/-- Fixture rendered page stored under A in menu fixtures. -/
def eA : Embed :=
  { title := "page A"
    colour := 2
    fields := []
    footer_text := ""
    footer_image := ""
    thumbnail := ""
    image := "" }

/-- Fixture menu session: pages MAIN and A, a stop binding that sets the exit
flag, a binding to the absent page X, a binding to the present page A, live
message id 7, command message id 100, invoking author 0. -/
def sampleMenu : MenuState :=
  { pages := [("MAIN", eMain), ("A", eA)]
    reactions := [("⏹", MenuAction.setExit),
                  ("❌", MenuAction.changePage "X"),
                  ("▶", MenuAction.changePage "A")]
    ctxAuthor := 0
    ctxMessageId := 100
    messageId := some 7
    messageEmbed := some eMain
    exit := false }

/-- Fixture page map with eleven pages: MAIN followed by P1 through P10. -/
def pagesEleven : List (String × Embed) :=
  [("MAIN", eMain), ("P1", eA), ("P2", eA), ("P3", eA), ("P4", eA),
   ("P5", eA), ("P6", eA), ("P7", eA), ("P8", eA), ("P9", eA), ("P10", eA)]

/-- Fixture menu session over the eleven-page map, fresh from `Menu.init`. -/
def menuEleven : MenuState := Menu.init pagesEleven 0 100

/-- Once the exit flag is set, the loop of `deploy_menu` stops before awaiting
any further outcome and reports no further effect. -/
theorem deployLoop_of_exit (st : MenuState) (outs : List WaitOutcome)
    (h : st.exit = true) : deployLoop st outs = Except.ok (st, []) := by
  cases outs with
  | nil => rfl
  | cons o rest => simp [deployLoop, h]

/-- Assigning a key absent from a dict appends the pair at the end. -/
theorem dictInsert_of_get_none {α : Type} (m : List (String × α)) (k : String)
    (v : α) (h : dictGet m k = none) : dictInsert m k v = m ++ [(k, v)] := by
  induction m with
  | nil => rfl
  | cons p rest ih =>
      obtain ⟨k', v'⟩ := p
      by_cases hk : k' = k
      · simp [dictGet, hk] at h
      · simp only [dictGet, if_neg hk] at h
        simp [dictInsert, hk, ih h]

/-- Lookup of a key that was absent, after appending a single pair: found
exactly when the appended key is the one looked up. -/
theorem dictGet_append_single {α : Type} (m : List (String × α))
    (k k' : String) (v : α) (h : dictGet m k' = none) :
    dictGet (m ++ [(k, v)]) k' = if k = k' then some v else none := by
  induction m with
  | nil => rfl
  | cons p rest ih =>
      obtain ⟨k0, v0⟩ := p
      by_cases hk : k0 = k'
      · simp [dictGet, hk] at h
      · simp only [dictGet, if_neg hk] at h
        simpa [dictGet, hk] using ih h

/-- Folding the numbered-page insertions of `attach_numbers` over pairs whose
page-number symbols are pairwise distinct and all absent from the accumulator
appends one binding per pair, in order. -/
theorem attach_fold_eq :
    ∀ (pairs : List (String × Nat)) (acc : List (String × MenuAction)),
    (∀ pi ∈ pairs, dictGet acc (emojisPAGES pi.2) = none) →
    pairs.Pairwise (fun a b => emojisPAGES a.2 ≠ emojisPAGES b.2) →
    pairs.foldl
      (fun rs pi => dictInsert rs (emojisPAGES pi.2)
        (MenuAction.changePage pi.1)) acc
      = acc ++ pairs.map
          (fun pi => (emojisPAGES pi.2, MenuAction.changePage pi.1))
  | [], acc, _, _ => by simp
  | pi :: rest, acc, hfresh, hnd => by
      obtain ⟨hph, hpt⟩ := List.pairwise_cons.mp hnd
      have hins : dictInsert acc (emojisPAGES pi.2)
          (MenuAction.changePage pi.1)
          = acc ++ [(emojisPAGES pi.2, MenuAction.changePage pi.1)] :=
        dictInsert_of_get_none _ _ _ (hfresh pi (List.mem_cons_self _ _))
      have hfresh' : ∀ q ∈ rest,
          dictGet (acc ++ [(emojisPAGES pi.2, MenuAction.changePage pi.1)])
            (emojisPAGES q.2) = none := by
        intro q hq
        rw [dictGet_append_single _ _ _ _ (hfresh q (List.mem_cons_of_mem _ hq))]
        simp [hph q hq]
      simp only [List.foldl_cons, hins]
      rw [attach_fold_eq rest _ hfresh' hpt]
      simp

/-- First components of a zip are the first components truncated to the
length of the second list. -/
theorem map_fst_zip_take {α β : Type} :
    ∀ (ks : List α) (is : List β),
    (ks.zip is).map Prod.fst = ks.take is.length
  | [], _ => by simp
  | _ :: _, [] => by simp
  | k :: ks, i :: is => by
      simp only [List.zip_cons_cons, List.map_cons, List.length_cons,
        List.take_succ_cons]
      rw [map_fst_zip_take ks is]

/-- A pairwise relation on the second list lifts along zip to the second
components of the pairs. -/
theorem pairwise_zip_snd {α β : Type} {R : β → β → Prop} :
    ∀ (ks : List α) (is : List β), is.Pairwise R →
    (ks.zip is).Pairwise (fun a b => R a.2 b.2)
  | [], _, _ => by simp
  | _ :: _, [], _ => by simp
  | k :: ks, i :: is, h => by
      obtain ⟨hh, ht⟩ := List.pairwise_cons.mp h
      refine List.pairwise_cons.mpr ⟨?_, pairwise_zip_snd ks is ht⟩
      intro b hb
      obtain ⟨b1, b2⟩ := b
      exact hh b2 (List.of_mem_zip hb).2

/-- The nine page-number symbols subscripted by `attach_numbers` are pairwise
distinct. -/
theorem pages_emoji_pairwise :
    (List.range' 1 9).Pairwise (fun a b => emojisPAGES a ≠ emojisPAGES b) := by
  decide

/-- Monadic bind on a successful Except computation runs the continuation. -/
theorem pyBind_ok {α β : Type} (a : α) (f : α → Except PyError β) :
    (Except.ok a >>= f) = f a := rfl

/-- Monadic bind on a raised error propagates the error. -/
theorem pyBind_error {α β : Type} (e : PyError) (f : α → Except PyError β) :
    ((Except.error e : Except PyError α) >>= f) = Except.error e := rfl

/-- Computation of `Handler.retrieve_embed` when the flow key is present:
the embed built from the rendered descriptor, its fields rendered by
`addFieldOf`. -/
theorem retrieve_embed_of_get (h : Handler) (ft : String) (fc : FlowClass)
    (hfc : dictGet h.pages ft = some fc) :
    h.retrieve_embed ft = Except.ok
      { title := (fc.render h.player).title
        colour := h.getColour (fc.render h.player).colour
        fields := (fc.render h.player).fields.map addFieldOf
        footer_text := (fc.render h.player).footer_text
        footer_image := (fc.render h.player).footer_image
        thumbnail := (fc.render h.player).thumbnail
        image := (fc.render h.player).image } := by
  unfold Handler.retrieve_embed
  rw [hfc]
  rfl

/-- Claim C1 (evidence of the code bug): for every handler and flow key at
which `retrieve_embed` succeeds, `retrieve_menu` does not return a Menu whose
page map results from the pointer chain walk; instead the two-variable tuple
unpacking of the single Embed returned by `retrieve_embed` raises TypeError,
which propagates to the caller before any chain is walked. -/
theorem retrieve_menu_raises_typeError (h : Handler) (ft : String) (e : Embed)
    (a mId : Nat) (he : h.retrieve_embed ft = Except.ok e) :
    h.retrieve_menu ft a mId
      = Except.error
        (PyError.typeError "cannot unpack non-iterable Embed object") := by
  unfold Handler.retrieve_menu
  rw [he]
  rfl

/-- Witness for C1: on the fixture handler whose pointer chain is MAIN, A, B,
rendering MAIN succeeds, and `retrieve_menu` raises the TypeError. -/
theorem retrieve_menu_raises_typeError_witness :
    sampleHandler.retrieve_embed "MAIN" = Except.ok eMainRendered
    ∧ sampleHandler.retrieve_menu "MAIN" 0 100
      = Except.error
        (PyError.typeError "cannot unpack non-iterable Embed object") :=
  ⟨rfl, retrieve_menu_raises_typeError sampleHandler "MAIN" eMainRendered 0 100
    rfl⟩

/-- Claim C3 (evidence of the code bug): `get_message` returns the text
content of the first message passing `Handler.verify` (same author, same
channel) when one arrives within the timeout window, but when none arrives
the asyncio.TimeoutError raised by `bot.wait_for` propagates to the caller -
the function does not return None. -/
theorem get_message_behavior (a c : Nat) (arr1 arr2 : List InMessage)
    (m : InMessage)
    (h1 : arr1.find? (Handler.verify a c) = some m)
    (h2 : arr2.find? (Handler.verify a c) = none) :
    Handler.get_message a c arr1 = Except.ok (some m.content)
    ∧ Handler.get_message a c arr2 = Except.error PyError.timeoutError := by
  constructor
  · unfold Handler.get_message waitForFirst
    rw [h1]
    rfl
  · unfold Handler.get_message waitForFirst
    rw [h2]
    rfl

/-- Witness for C3: author 0 in channel 1; a matching message with content
hello is returned as text, while a window holding only a message from another
author ends in the propagated timeout error. -/
theorem get_message_behavior_witness :
    Handler.get_message 0 1 [InMessage.mk 0 1 "hello"]
      = Except.ok (some "hello")
    ∧ Handler.get_message 0 1 [InMessage.mk 2 1 "nope"]
      = Except.error PyError.timeoutError :=
  get_message_behavior 0 1 [InMessage.mk 0 1 "hello"]
    [InMessage.mk 2 1 "nope"] (InMessage.mk 0 1 "hello") rfl rfl

/-- Claim C6: the fields of an embed rendered by `retrieve_embed` are exactly
the descriptor's field tuples rendered by `addFieldOf`, which renders every
2-element tuple as an inline field and every 3-element tuple with its inline
flag equal to the third element. -/
theorem retrieve_embed_fields (h : Handler) (ft : String) (fc : FlowClass)
    (e : Embed) (hfc : dictGet h.pages ft = some fc)
    (he : h.retrieve_embed ft = Except.ok e) :
    e.fields = (fc.render h.player).fields.map addFieldOf
    ∧ (∀ n v, addFieldOf (FieldSpec.two n v) = (n, v, true))
    ∧ (∀ n v b, addFieldOf (FieldSpec.three n v b) = (n, v, b)) := by
  refine ⟨?_, fun n v => rfl, fun n v b => rfl⟩
  rw [retrieve_embed_of_get h ft fc hfc] at he
  injection he with he'
  rw [← he']

/-- Witness for C6: on the fixture handler, flow B holds one 3-element field
tuple with inline false, and the rendered embed's field is exactly (x, y,
false). -/
theorem retrieve_embed_fields_witness :
    dictGet sampleHandler.pages "B" = some fcB
    ∧ eBRendered.fields = (fcB.render sampleHandler.player).fields.map
        addFieldOf :=
  ⟨rfl, (retrieve_embed_fields sampleHandler "B" fcB eBRendered rfl rfl).1⟩

/-- Claim C7: with no message stored yet, the first `display` call posts
exactly one new message (the rendered first flow) and stores its reference;
the second call, with any other flow, issues exactly one edit of that same
stored message and posts nothing. -/
theorem display_once_then_edit (h : Handler) (f1 f2 : String) (id1 id2 : Nat)
    (e1 e2 : Embed) (hm : h.message = none)
    (h1 : h.retrieve_embed f1 = Except.ok e1)
    (h2 : h.retrieve_embed f2 = Except.ok e2) :
    Handler.display h f1 id1
      = Except.ok ({ h with message := some id1 }, [Effect.send id1 e1])
    ∧ Handler.display { h with message := some id1 } f2 id2
      = Except.ok ({ h with message := some id1 }, [Effect.edit id1 e2]) := by
  constructor
  · unfold Handler.display
    rw [hm, h1]
    rfl
  · have h2' : Handler.retrieve_embed { h with message := some id1 } f2
        = Except.ok e2 := h2
    unfold Handler.display
    rw [h2']
    rfl

/-- Witness for C7: the fixture handler displays MAIN as message 1, then a
second call for flow A edits message 1 in place; exactly one send and one
edit are issued. -/
theorem display_once_then_edit_witness :
    Handler.display sampleHandler "MAIN" 1
      = Except.ok ({ sampleHandler with message := some 1 },
          [Effect.send 1 eMainRendered])
    ∧ Handler.display { sampleHandler with message := some 1 } "A" 2
      = Except.ok ({ sampleHandler with message := some 1 },
          [Effect.edit 1 eARendered]) :=
  display_once_then_edit sampleHandler "MAIN" "A" 1 2 eMainRendered eARendered
    rfl rfl rfl

/-- Claim C2 (evidence of the code bug): for a deployed menu session with the
exit flag clear, the elapse of the 60-second idle timeout makes `deploy_menu`
raise asyncio.TimeoutError to its caller - discord.py's `wait_for` raises on
timeout rather than returning None, nothing in the loop catches it, and the
source's `if reaction is None` test is unreachable, so the timeout is not a
clean loop exit. -/
theorem deploy_menu_timeout_raises (st : MenuState) (mainE : Embed)
    (newId : Nat) (outs : List WaitOutcome) (hx : st.exit = false)
    (hmain : dictGet st.pages "MAIN" = some mainE) :
    Menu.deploy_menu st newId (WaitOutcome.timeout :: outs)
      = Except.error PyError.timeoutError := by
  obtain ⟨pgs, rcts, a, cm, mi, me, ex⟩ := st
  replace hx : ex = false := hx
  subst hx
  replace hmain : dictGet pgs "MAIN" = some mainE := hmain
  unfold Menu.deploy_menu
  rw [hmain]
  rfl

/-- Witness for C2: the fixture menu session deployed as message 9 with an
immediately elapsing timeout ends in the propagated TimeoutError. -/
theorem deploy_menu_timeout_raises_witness :
    sampleMenu.exit = false
    ∧ Menu.deploy_menu sampleMenu 9 [WaitOutcome.timeout]
      = Except.error PyError.timeoutError :=
  ⟨rfl, deploy_menu_timeout_raises sampleMenu eMain 9 [] rfl rfl⟩

/-- Claim C4 counterexample: the session filter `Menu.verify` accepts a
reaction-added event from the invoking user (author 0) even though the
reaction sits on message 5 while the session's live message is 7, so the
filter written from the spec's words (which also requires the reaction to be
on the live message) disagrees with it at this input. -/
theorem verify_counterexample :
    Menu.verify 0 (Reaction.mk 5 "x") 0 = true
    ∧ specSessionFilter 0 7 (Reaction.mk 5 "x") 0 = false :=
  ⟨rfl, rfl⟩

/-- Claim C4 as amended: the filter passed to `wait_for` accepts an event
exactly when the reacting user is the original invoking user; the message the
reaction is on is not inspected at all. -/
theorem verify_accepts_iff_user (ctxAuthor : Nat) (reaction : Reaction)
    (user : Nat) :
    Menu.verify ctxAuthor reaction user = true ↔ user = ctxAuthor := by
  simp [Menu.verify]

/-- Claim C5 counterexample: on the two-page map MAIN, A with no binding yet,
`attach_numbers` binds the first page-number symbol to a change-page callback
for MAIN itself, so its bindings differ from the spec-side auto-binding that
skips MAIN. -/
theorem attach_numbers_counterexample :
    (Menu.attach_numbers (Menu.init [("MAIN", eMain), ("A", eA)] 0 100)).reactions
      ≠ specAutoBind [("MAIN", eMain), ("A", eA)]
    ∧ dictGet
        (Menu.attach_numbers
          (Menu.init [("MAIN", eMain), ("A", eA)] 0 100)).reactions
        (emojisPAGES 1)
      = some (MenuAction.changePage "MAIN") := by
  constructor
  · decide
  · rfl

/-- Claim C5 as amended: starting from an empty binding map, `attach_numbers`
binds one distinct page-number symbol, in the fixed order, to a change-page
callback for each page key including MAIN, in the map's iteration order,
stopping after at most nine pages; the bound callbacks target exactly the
first nine page keys and pages beyond the ninth are silently dropped. -/
theorem attach_numbers_binds_first_nine (st : MenuState)
    (h : st.reactions = []) :
    (Menu.attach_numbers st).reactions
      = ((st.pages.map Prod.fst).zip (List.range' 1 9)).map
          (fun pi => (emojisPAGES pi.2, MenuAction.changePage pi.1))
    ∧ (Menu.attach_numbers st).reactions.map Prod.snd
      = ((st.pages.map Prod.fst).take 9).map MenuAction.changePage
    ∧ (Menu.attach_numbers st).reactions.length = min st.pages.length 9 := by
  have hbody : (Menu.attach_numbers st).reactions
      = ((st.pages.map Prod.fst).zip (List.range' 1 9)).foldl
          (fun rs pi => dictInsert rs (emojisPAGES pi.2)
            (MenuAction.changePage pi.1)) st.reactions := rfl
  have hkey : (Menu.attach_numbers st).reactions
      = ((st.pages.map Prod.fst).zip (List.range' 1 9)).map
          (fun pi => (emojisPAGES pi.2, MenuAction.changePage pi.1)) := by
    rw [hbody, h]
    rw [attach_fold_eq _ [] (fun q hq => rfl)
      (pairwise_zip_snd _ _ pages_emoji_pairwise)]
    simp
  refine ⟨hkey, ?_, ?_⟩
  · rw [hkey, List.map_map]
    rw [show (9 : Nat) = (List.range' 1 9).length from rfl,
      ← map_fst_zip_take (st.pages.map Prod.fst) (List.range' 1 9),
      List.map_map]
    rfl
  · rw [hkey]
    simp [List.length_zip]

/-- Witness for C5: on the fixture eleven-page map, exactly nine bindings are
made, targeting MAIN and P1 through P8 in order, so two pages (P9 and P10)
get no auto-binding. -/
theorem attach_numbers_binds_first_nine_witness :
    menuEleven.reactions = []
    ∧ (Menu.attach_numbers menuEleven).reactions.length
      = min menuEleven.pages.length 9 :=
  ⟨rfl, (attach_numbers_binds_first_nine menuEleven rfl).2.2⟩

/-- Claim C8: when a received reaction is bound to a callback that sets the
exit flag, the callback runs to completion, the user's reaction instance is
still removed, and the loop terminates before awaiting any further outcome:
the result is independent of the remaining queued outcomes and contains no
effect from them. -/
theorem deployLoop_exit_callback (st : MenuState) (mid u : Nat) (em : String)
    (rest : List WaitOutcome) (hx : st.exit = false)
    (hb : dictGet st.reactions em = some MenuAction.setExit) :
    deployLoop st
      (WaitOutcome.event (RxEvent.mk (Reaction.mk mid em) u) :: rest)
      = Except.ok ({ st with exit := true },
          [Effect.removeReaction mid em u]) := by
  obtain ⟨pgs, rcts, a, cm, mi, me, ex⟩ := st
  replace hx : ex = false := hx
  subst hx
  replace hb : dictGet rcts em = some MenuAction.setExit := hb
  have hpe : processEvent (MenuState.mk pgs rcts a cm mi me false)
      (RxEvent.mk (Reaction.mk mid em) u)
      = Except.ok (MenuState.mk pgs rcts a cm mi me true,
          [Effect.removeReaction mid em u]) := by
    unfold processEvent
    rw [hb]
    rfl
  have hrest := deployLoop_of_exit (MenuState.mk pgs rcts a cm mi me true)
    rest rfl
  simp [deployLoop, hpe, hrest, pyBind_ok]

/-- Witness for C8: on the fixture session, the stop reaction's callback sets
the exit flag; with another event still queued, the loop returns with only
the stop reaction's removal performed and the queued event unprocessed. -/
theorem deployLoop_exit_callback_witness :
    deployLoop sampleMenu
      (WaitOutcome.event (RxEvent.mk (Reaction.mk 7 "⏹") 0)
        :: [WaitOutcome.event (RxEvent.mk (Reaction.mk 7 "▶") 0)])
      = Except.ok ({ sampleMenu with exit := true },
          [Effect.removeReaction 7 "⏹" 0]) :=
  deployLoop_exit_callback sampleMenu 7 0 "⏹"
    [WaitOutcome.event (RxEvent.mk (Reaction.mk 7 "▶") 0)] rfl rfl

/-- Claim C9: with a live message, `change_page` on a key absent from the
page map raises KeyError naming that key, and the error propagates out of the
session loop when the bound callback is dispatched rather than being
swallowed; on a present key it edits the live message in place to the
rendered page stored at that key. -/
theorem change_page_lookup (st : MenuState) (m : Nat) (pAbs pPres : String)
    (e : Embed) (em : String) (mid u : Nat) (rest : List WaitOutcome)
    (hm : st.messageId = some m)
    (habs : dictGet st.pages pAbs = none)
    (hpres : dictGet st.pages pPres = some e)
    (hb : dictGet st.reactions em = some (MenuAction.changePage pAbs))
    (hx : st.exit = false) :
    Menu.change_page st pAbs = Except.error (PyError.keyError pAbs)
    ∧ deployLoop st
        (WaitOutcome.event (RxEvent.mk (Reaction.mk mid em) u) :: rest)
      = Except.error (PyError.keyError pAbs)
    ∧ Menu.change_page st pPres
      = Except.ok ({ st with messageEmbed := some e }, [Effect.edit m e]) := by
  obtain ⟨pgs, rcts, a, cm, mi, me, ex⟩ := st
  replace hx : ex = false := hx
  subst hx
  replace hm : mi = some m := hm
  subst hm
  replace habs : dictGet pgs pAbs = none := habs
  replace hpres : dictGet pgs pPres = some e := hpres
  replace hb : dictGet rcts em = some (MenuAction.changePage pAbs) := hb
  have hcp : Menu.change_page (MenuState.mk pgs rcts a cm (some m) me false)
      pAbs = Except.error (PyError.keyError pAbs) := by
    unfold Menu.change_page
    rw [habs]
    rfl
  refine ⟨hcp, ?_, ?_⟩
  · have hpe : processEvent (MenuState.mk pgs rcts a cm (some m) me false)
        (RxEvent.mk (Reaction.mk mid em) u)
        = Except.error (PyError.keyError pAbs) := by
      unfold processEvent
      rw [hb]
      show (do
        let x ← runAction (MenuState.mk pgs rcts a cm (some m) me false)
          (MenuAction.changePage pAbs)
        Except.ok (x.1, x.2 ++ [Effect.removeReaction mid em u])) = _
      rw [show runAction (MenuState.mk pgs rcts a cm (some m) me false)
          (MenuAction.changePage pAbs)
          = Except.error (PyError.keyError pAbs) from hcp]
      rfl
    simp [deployLoop, hpe, pyBind_error]
  · unfold Menu.change_page
    rw [hpres]
    rfl

/-- Witness for C9: on the fixture session (live message 7), changing to the
absent page X raises KeyError X, the same KeyError propagates out of the loop
when the bound reaction is dispatched, and changing to the present page A
edits message 7 to the stored page A embed. -/
theorem change_page_lookup_witness :
    Menu.change_page sampleMenu "X" = Except.error (PyError.keyError "X")
    ∧ deployLoop sampleMenu
        [WaitOutcome.event (RxEvent.mk (Reaction.mk 7 "❌") 0)]
      = Except.error (PyError.keyError "X")
    ∧ Menu.change_page sampleMenu "A"
      = Except.ok ({ sampleMenu with messageEmbed := some eA },
          [Effect.edit 7 eA]) :=
  change_page_lookup sampleMenu 7 "X" "A" eA "❌" 7 0 [] rfl rfl rfl rfl rfl

/-- Claim C10: `clear_reactions` leaves the session state untouched and
issues no effect to the platform - the clear-reactions coroutine it builds is
never awaited - and the coroutine it builds targets the context's command
message, which is not the message the menu posted. -/
theorem clear_reactions_no_effect (st : MenuState) (mid : Nat)
    (hm : st.messageId = some mid) (hne : st.ctxMessageId ≠ mid) :
    (Menu.clear_reactions st).1 = st
    ∧ (Menu.clear_reactions st).2.1 = []
    ∧ (Menu.clear_reactions st).2.2
      = Coroutine.clearReactions st.ctxMessageId
    ∧ Coroutine.clearReactions st.ctxMessageId
      ≠ Coroutine.clearReactions mid := by
  refine ⟨rfl, rfl, rfl, ?_⟩
  intro hcontra
  injection hcontra with h'
  exact hne h'

/-- Witness for C10: on the fixture session (command message 100, live menu
message 7), `clear_reactions` changes nothing, performs no effect, and its
unawaited coroutine targets message 100, not the live message 7. -/
theorem clear_reactions_no_effect_witness :
    (Menu.clear_reactions sampleMenu).1 = sampleMenu
    ∧ (Menu.clear_reactions sampleMenu).2.1 = []
    ∧ (Menu.clear_reactions sampleMenu).2.2
      = Coroutine.clearReactions sampleMenu.ctxMessageId
    ∧ Coroutine.clearReactions sampleMenu.ctxMessageId
      ≠ Coroutine.clearReactions 7 :=
  clear_reactions_no_effect sampleMenu 7 rfl (by decide)
